import Mathlib

/-!
Shallow embedding of the c-state-machine dispatch engine, translated from
`src/state-machine.h` and `src/state-machine.c`.

Modelling conventions:

* Machine integers (`uint32_t`) are represented by `Nat`; no arithmetic in the
  engine can overflow (states, events and status codes are only copied and
  compared, never computed with).
* C function pointers supplied by the embedder (`on_enter`,
  `on_undefined_transition`) are represented by opaque identifiers
  (`Option Nat`, `none` = `NULL`); the engine never executes them, it only
  invokes them, so each invocation is recorded in a trace (`List Call`)
  together with the arguments passed.
* The opaque `void *data` and `void *event_data` pointers are threaded through
  the C code unchanged and uninterpreted; they are folded into the closures of
  the embedder-supplied resolver and cleanup functions here.
* The resolver out-parameter `State_machine_transition **` is modelled as an
  `Option State_machine_transition` component of the resolver result: `none`
  means the resolver returned without storing a pointer.  If the engine would
  dereference that unset pointer, the dispatch function returns `none`
  (undefined behaviour).
* The `try_take` locking primitive may succeed or fail depending on the
  environment (other lock holders); its outcome is passed to each call as an
  explicit `try_take_ok : Bool` input.  `take` blocks until it succeeds, so in
  this sequential embedding it always succeeds.
* The `assert` statements inside `state_machine_event`, `lock_take` and
  `lock_give` express preconditions of the caller; they are modelled as
  hypotheses of the theorems below (NDEBUG semantics).  The asserts inside the
  initializers are modelled explicitly (initialization returns `none` on a
  failed assertion), because construction-time validation is itself under
  scrutiny below.
-/

namespace CStateMachine

/-- Status code `STATE_MACHINE_SUCCESS` (state-machine.h, line 334). -/
def STATE_MACHINE_SUCCESS : Nat := 0

/-- Status code `STATE_MACHINE_WOULD_BLOCK` (state-machine.h, line 335). -/
def STATE_MACHINE_WOULD_BLOCK : Nat := 1

/-- Flag `STATE_MACHINE_NONBLOCK` (state-machine.h, line 282); the value 2048
mirrors O_NONBLOCK on Linux. -/
def STATE_MACHINE_NONBLOCK : Nat := 2048

/-- The `transition` arm of the `result` union in `State_machine_transition`
(state-machine.h, lines 70-79): a next state plus an optional on-enter
callback (`none` = `NULL`). -/
structure Transition_arm where
  next_state : Nat
  on_enter : Option Nat
deriving DecidableEq

/-- The `no_transition` arm of the `result` union in
`State_machine_transition` (state-machine.h, lines 81-87): an optional
on-undefined-transition callback (`none` = `NULL`). -/
structure No_transition_arm where
  on_undefined_transition : Option Nat
deriving DecidableEq

/-- Struct `State_machine_transition` (state-machine.h, lines 50-89).  The C
`result` union is embedded with both arms present; the engine only ever reads
the arm selected by the `is_transition` discriminant, so this representation
covers every behaviour the code exhibits. -/
structure State_machine_transition where
  cause : Nat
  current_state : Nat
  is_transition : Bool
  transition : Transition_arm
  no_transition : No_transition_arm
deriving DecidableEq

/-- Struct `State_machine_locking` (state-machine.h, lines 133-138).  Each C
field is a function pointer; only its presence is recorded here (`true` =
non-NULL).  The runtime outcome of `try_take` is an input of each engine
call. -/
structure State_machine_locking where
  try_take : Bool
  take : Bool
  give : Bool
deriving DecidableEq

/-- Macro `STATE_MACHINE_NO_LOCKING` (state-machine.h, lines 144-145): all
three locking primitives are `NULL`. -/
def STATE_MACHINE_NO_LOCKING : State_machine_locking :=
  { try_take := false, take := false, give := false }

/-- The `transition` member of `State_machine_s` (state-machine.h, lines
182-216): a `using_table` discriminant selecting between a transition table
and a resolver function with optional cleanup.  The table is the total lookup
`grid state event` (C: `table[current_state][event]`, state-machine.c lines
236-239).  The resolver returns a status and the out-pointer content (`none`
if it did not store one); the cleanup function returns a status.  The opaque
`void *data` argument of both is folded into their closures. -/
inductive State_machine_strategy where
  | table (grid : Nat → Nat → State_machine_transition)
  | function (transition : Nat → Nat → Nat × Option State_machine_transition)
      (cleanup : Option (State_machine_transition → Nat))

/-- Struct `State_machine_s` (state-machine.h, lines 153-221).  The opaque
`void *data` field is folded into the embedder-supplied closures and omitted
here. -/
structure State_machine where
  max_state : Nat
  max_event : Nat
  current_state : Nat
  lock : State_machine_locking
  transition : State_machine_strategy

/-- Macro `USE_LOCKING` (state-machine.c, line 62): locking is used iff the
`take` primitive is present. -/
def USE_LOCKING (sm : State_machine) : Bool := sm.lock.take

/-- The condition checked by macro `ASSERT_LOCKING_DEFINITION_CONSISTENCY`
(state-machine.c, lines 67-69): either all three locking primitives are
absent, or all three are present. -/
def locking_definition_consistent (lock : State_machine_locking) : Bool :=
  (!lock.take && !lock.try_take && !lock.give) ||
  (lock.take && lock.try_take && lock.give)

/-- Function `state_machine_init_common` (state-machine.c, lines 73-97),
merged with the strategy-implementation assignment performed by its two
callers right after it returns.  The asserts at lines 84-88 are modelled as a
check returning `none` (fatal assertion failure) when violated.  NOTE: line 88
asserts `ASSERT_LOCKING_DEFINITION_CONSISTENCY(SM_LOCK(sm))`, i.e. it checks
the lock field of the machine as it was BEFORE initialization, not the `lock`
argument; the argument is only installed afterwards (line 94).  This embedding
reproduces that faithfully. -/
def state_machine_init_common (sm : State_machine)
    (max_state max_event init_state : Nat) (lock : State_machine_locking)
    (strat : State_machine_strategy) : Option State_machine :=
  if 0 < max_state ∧ 0 < max_event ∧ init_state < max_state ∧
      locking_definition_consistent sm.lock = true then
    some { max_state := max_state, max_event := max_event,
           current_state := init_state, lock := lock, transition := strat }
  else
    none

/-- Function `state_machine_init_table` (state-machine.c, lines 99-112).  The
`ASSERT_NOT_NULL(transition_table)` check is discharged by typing: `grid` is a
total function. -/
def state_machine_init_table (sm : State_machine)
    (max_state max_event init_state : Nat) (lock : State_machine_locking)
    (grid : Nat → Nat → State_machine_transition) : Option State_machine :=
  state_machine_init_common sm max_state max_event init_state lock
    (State_machine_strategy.table grid)

/-- Function `state_machine_init_function` (state-machine.c, lines 114-132).
The `ASSERT_NOT_NULL(transition)` check is discharged by typing; `cleanup` may
be `none` (NULL). -/
def state_machine_init_function (sm : State_machine)
    (max_state max_event init_state : Nat) (lock : State_machine_locking)
    (f : Nat → Nat → Nat × Option State_machine_transition)
    (cl : Option (State_machine_transition → Nat)) : Option State_machine :=
  state_machine_init_common sm max_state max_event init_state lock
    (State_machine_strategy.function f cl)

/-- Function `lock_take` (state-machine.c, lines 137-159): with locking in
use, a nonblocking call tries `try_take` and reports `WOULD_BLOCK` on failure,
a blocking call takes the lock (always succeeding in this sequential model);
without locking it succeeds immediately.  `try_take_ok` is the answer of the
environment to the `try_take` call. -/
def lock_take (sm : State_machine) (flags : Nat) (try_take_ok : Bool) : Nat :=
  if USE_LOCKING sm then
    if flags &&& STATE_MACHINE_NONBLOCK ≠ 0 then
      if !try_take_ok then STATE_MACHINE_WOULD_BLOCK
      else STATE_MACHINE_SUCCESS
    else STATE_MACHINE_SUCCESS
  else STATE_MACHINE_SUCCESS

/-- Function `state_machine_current_state` (state-machine.c, lines 173-189).
Result: (return status, value written through the `state` out-pointer if any,
machine after the call).  The function never writes to the machine, which the
third component records explicitly. -/
def state_machine_current_state (sm : State_machine) (flags : Nat)
    (try_take_ok : Bool) : Nat × Option Nat × State_machine :=
  let ret := lock_take sm flags try_take_ok
  if ret ≠ STATE_MACHINE_SUCCESS then (ret, none, sm)
  else (ret, some sm.current_state, sm)

/-- One embedder-code invocation performed by `state_machine_event`, recorded
with the arguments the C code passes. -/
inductive Call where
  | resolve (current_state event : Nat)
  | on_enter (cb : Nat) (cause current_state previous_state : Nat)
  | on_undefined (cb : Nat) (cause current_state : Nat)
  | cleanup
deriving DecidableEq

/-- Number of cleanup-function invocations recorded in a trace. -/
def cleanup_count (calls : List Call) : Nat :=
  calls.countP
    (fun c => match c with | Call.cleanup => true | _ => false)

/-- Outcome of one `state_machine_event` call: return status, machine after
the call, and the trace of embedder-code invocations in order. -/
structure Dispatch_result where
  ret : Nat
  sm : State_machine
  calls : List Call

/-- What a strategy resolves a (state, event) pair to (state-machine.c, lines
234-259): a table strategy reads `table[current_state][event]` (status stays
`STATE_MACHINE_SUCCESS`, pointer always valid); a function strategy calls the
resolver, whose status and out-pointer are taken as returned. -/
def strategy_resolves (strat : State_machine_strategy) (cur event : Nat) :
    Nat × Option State_machine_transition :=
  match strat with
  | State_machine_strategy.table grid =>
      (STATE_MACHINE_SUCCESS, some (grid cur event))
  | State_machine_strategy.function f _ => f cur event

/-- The resolution step of `state_machine_event`: the strategy of the machine
applied to the snapshot of `current_state` and the incoming event. -/
def resolve_transition (sm : State_machine) (event : Nat) :
    Nat × Option State_machine_transition :=
  strategy_resolves sm.transition sm.current_state event

/-- Embedder-code invocations performed by the resolution step: the table
lookup runs no embedder code, the function strategy calls the resolver with
the snapshot of `current_state` and the event. -/
def resolve_calls (sm : State_machine) (event : Nat) : List Call :=
  match sm.transition with
  | State_machine_strategy.table _ => []
  | State_machine_strategy.function _ _ => [Call.resolve sm.current_state event]

/-- The cleanup step of `state_machine_event` (state-machine.c, lines
337-350): with a table strategy nothing happens; with a function strategy and
a non-NULL cleanup function, `cleanup(data, transition)` is invoked and its
status replaces the return value. -/
def event_cleanup_step (sm : State_machine) (ret : Nat)
    (t : State_machine_transition) (calls : List Call) : Dispatch_result :=
  match sm.transition with
  | State_machine_strategy.table _ => { ret := ret, sm := sm, calls := calls }
  | State_machine_strategy.function _ cl =>
      match cl with
      | some c => { ret := c t, sm := sm, calls := calls ++ [Call.cleanup] }
      | none => { ret := ret, sm := sm, calls := calls }

/-- The part of `state_machine_event` after the resolution step
(state-machine.c, lines 261-350).  Line 267 tests
`is_sm_success(ret) && IS_TRANSITION(transition)` with C short-circuit
evaluation: the pointer is dereferenced only when `ret` is
`STATE_MACHINE_SUCCESS`; an unset resolver pointer (`none`) dereferenced there
is undefined behaviour, returned as `none`.  On a nonzero `ret` the lock is
released and the status returned verbatim (lines 284-292) before the callback
(lines 312-330) and cleanup (lines 337-348) sections. -/
def event_after_resolution (sm : State_machine) (event ret : Nat)
    (tptr : Option State_machine_transition) (calls : List Call) :
    Option Dispatch_result :=
  if ret = STATE_MACHINE_SUCCESS then
    match tptr with
    | none => none
    | some t =>
        if t.is_transition then
          let previous_state := sm.current_state
          let new_state := t.transition.next_state
          let sm1 : State_machine := { sm with current_state := new_state }
          let cb_calls : List Call :=
            match t.transition.on_enter with
            | some cb => [Call.on_enter cb event new_state previous_state]
            | none => []
          some (event_cleanup_step sm1 ret t (calls ++ cb_calls))
        else
          let cb_calls : List Call :=
            match t.no_transition.on_undefined_transition with
            | some cb => [Call.on_undefined cb event sm.current_state]
            | none => []
          some (event_cleanup_step sm ret t (calls ++ cb_calls))
  else
    some { ret := ret, sm := sm, calls := calls }

/-- Function `state_machine_event` (state-machine.c, lines 191-351): take the
lock (returning the failure status immediately on a nonblocking miss, lines
208-217), snapshot `current_state`, resolve the transition (lines 234-259),
then mutate, release the lock, and run callbacks and cleanup (lines
261-350). -/
def state_machine_event (sm : State_machine) (event flags : Nat)
    (try_take_ok : Bool) : Option Dispatch_result :=
  let lret := lock_take sm flags try_take_ok
  if lret ≠ STATE_MACHINE_SUCCESS then
    some { ret := lret, sm := sm, calls := [] }
  else
    let r := resolve_transition sm event
    event_after_resolution sm event r.1 r.2 (resolve_calls sm event)

/-! Concrete instances, used to evaluate the engine on explicit inputs in the
theorems below. -/

/-- Concrete defined-transition result: next state 1, on-enter callback 10. -/
def t_to_one : State_machine_transition :=
  { cause := 0, current_state := 0, is_transition := true,
    transition := { next_state := 1, on_enter := some 10 },
    no_transition := { on_undefined_transition := none } }

/-- Concrete undefined-transition result with on-undefined callback 20. -/
def t_undefined : State_machine_transition :=
  { cause := 0, current_state := 0, is_transition := false,
    transition := { next_state := 0, on_enter := none },
    no_transition := { on_undefined_transition := some 20 } }

/-- Concrete locking configuration with all three primitives present. -/
def full_lock : State_machine_locking :=
  { try_take := true, take := true, give := true }

/-- Concrete locking configuration with only `take` present: some but not all
of the three primitives. -/
def take_only_lock : State_machine_locking :=
  { try_take := false, take := true, give := false }

/-- Concrete machine value standing for a zero-initialized `State_machine`
local variable: all lock pointers NULL (all-zero bytes). -/
def zeroed_machine : State_machine :=
  { max_state := 0, max_event := 0, current_state := 0,
    lock := STATE_MACHINE_NO_LOCKING,
    transition := State_machine_strategy.table (fun _ _ => t_undefined) }

/-- Concrete table machine without locking: every (state, event) pair maps to
`t_to_one`. -/
def const_table_machine : State_machine :=
  { max_state := 2, max_event := 1, current_state := 0,
    lock := STATE_MACHINE_NO_LOCKING,
    transition := State_machine_strategy.table (fun _ _ => t_to_one) }

/-- Concrete table machine with locking enabled. -/
def locked_table_machine : State_machine :=
  { max_state := 2, max_event := 1, current_state := 0,
    lock := full_lock,
    transition := State_machine_strategy.table (fun _ _ => t_to_one) }

/-- Concrete resolver: always succeeds with `t_to_one`. -/
def ok_resolver : Nat → Nat → Nat × Option State_machine_transition :=
  fun _ _ => (STATE_MACHINE_SUCCESS, some t_to_one)

/-- Concrete resolver that fails with embedder status 7 without storing a
transition pointer. -/
def failing_resolver : Nat → Nat → Nat × Option State_machine_transition :=
  fun _ _ => (7, none)

/-- Concrete resolver returning status 1, the numeric value of
`STATE_MACHINE_WOULD_BLOCK`, as an embedder-defined failure code. -/
def status_one_resolver : Nat → Nat → Nat × Option State_machine_transition :=
  fun _ _ => (STATE_MACHINE_WOULD_BLOCK, some t_undefined)

/-- Concrete function-strategy machine with a cleanup function returning
status 5, without locking. -/
def fn_machine : State_machine :=
  { max_state := 2, max_event := 1, current_state := 0,
    lock := STATE_MACHINE_NO_LOCKING,
    transition := State_machine_strategy.function ok_resolver
      (some (fun _ => 5)) }

/-- Concrete function-strategy machine whose resolver fails without storing a
pointer, without locking and without cleanup. -/
def failing_fn_machine : State_machine :=
  { max_state := 2, max_event := 1, current_state := 0,
    lock := STATE_MACHINE_NO_LOCKING,
    transition := State_machine_strategy.function failing_resolver none }

/-- Concrete function-strategy machine whose resolver returns status 1 (the
value of `STATE_MACHINE_WOULD_BLOCK`) as its own failure code, without
locking. -/
def status_one_fn_machine : State_machine :=
  { max_state := 2, max_event := 1, current_state := 0,
    lock := STATE_MACHINE_NO_LOCKING,
    transition := State_machine_strategy.function status_one_resolver none }

/-- Computed outcome of `state_machine_event const_table_machine 0 0 true`:
transition to state 1, on-enter callback 10 invoked, no cleanup. -/
def c1_out : Dispatch_result :=
  { ret := STATE_MACHINE_SUCCESS,
    sm := { max_state := 2, max_event := 1, current_state := 1,
            lock := STATE_MACHINE_NO_LOCKING,
            transition := State_machine_strategy.table (fun _ _ => t_to_one) },
    calls := [Call.on_enter 10 0 1 0] }

/-- Computed outcome of `state_machine_event fn_machine 0 0 true`: resolver
called, transition to state 1, on-enter callback 10 invoked, cleanup invoked
and its status 5 returned. -/
def c4_fn_out : Dispatch_result :=
  { ret := 5,
    sm := { max_state := 2, max_event := 1, current_state := 1,
            lock := STATE_MACHINE_NO_LOCKING,
            transition := State_machine_strategy.function ok_resolver
              (some (fun _ => 5)) },
    calls := [Call.resolve 0 0, Call.on_enter 10 0 1 0, Call.cleanup] }

/-- Machine produced by `state_machine_init_table` on `zeroed_machine` with
the partial locking configuration `take_only_lock`. -/
def c3_m : State_machine :=
  { max_state := 2, max_event := 1, current_state := 0,
    lock := take_only_lock,
    transition := State_machine_strategy.table (fun _ _ => t_to_one) }

/-! Helper lemmas shared by the claim theorems. -/

/-- Helper: a dispatch call that acquires the lock proceeds to resolution and
the post-resolution phase. -/
theorem state_machine_event_locked (sm : State_machine) (event flags : Nat)
    (tt : Bool) (hlock : lock_take sm flags tt = STATE_MACHINE_SUCCESS) :
    state_machine_event sm event flags tt =
      event_after_resolution sm event (resolve_transition sm event).1
        (resolve_transition sm event).2 (resolve_calls sm event) := by
  unfold state_machine_event
  simp [hlock]

/-- Helper: a dispatch call that fails to acquire the lock returns the
`lock_take` status with the machine untouched and no embedder code run. -/
theorem state_machine_event_lock_failed (sm : State_machine)
    (event flags : Nat) (tt : Bool)
    (hlock : lock_take sm flags tt ≠ STATE_MACHINE_SUCCESS) :
    state_machine_event sm event flags tt =
      some { ret := lock_take sm flags tt, sm := sm, calls := [] } := by
  unfold state_machine_event
  simp [hlock]

/-- Helper: on a function-strategy machine, a lock-acquiring dispatch is the
post-resolution phase applied to the resolver output, with the resolver call
recorded. -/
theorem event_function_strategy (sm : State_machine) (event flags : Nat)
    (tt : Bool) (f : Nat → Nat → Nat × Option State_machine_transition)
    (cl : Option (State_machine_transition → Nat))
    (hstrat : sm.transition = State_machine_strategy.function f cl)
    (hlock : lock_take sm flags tt = STATE_MACHINE_SUCCESS) :
    state_machine_event sm event flags tt =
      event_after_resolution sm event (f sm.current_state event).1
        (f sm.current_state event).2 [Call.resolve sm.current_state event] := by
  rw [state_machine_event_locked sm event flags tt hlock]
  simp [resolve_transition, strategy_resolves, resolve_calls, hstrat]

/-- Helper: a lock-acquiring function-strategy dispatch whose resolver reports
a nonzero status returns that status with the machine untouched; only the
resolver ran. -/
theorem event_function_failure (sm : State_machine) (event flags : Nat)
    (tt : Bool) (f : Nat → Nat → Nat × Option State_machine_transition)
    (cl : Option (State_machine_transition → Nat))
    (hstrat : sm.transition = State_machine_strategy.function f cl)
    (hlock : lock_take sm flags tt = STATE_MACHINE_SUCCESS)
    (hfail : (f sm.current_state event).1 ≠ STATE_MACHINE_SUCCESS) :
    state_machine_event sm event flags tt =
      some { ret := (f sm.current_state event).1, sm := sm,
             calls := [Call.resolve sm.current_state event] } := by
  rw [event_function_strategy sm event flags tt f cl hstrat hlock]
  unfold event_after_resolution
  simp [hfail]

/-- Helper: the cleanup step never modifies the machine. -/
theorem event_cleanup_step_sm (sm : State_machine) (ret : Nat)
    (t : State_machine_transition) (calls : List Call) :
    (event_cleanup_step sm ret t calls).sm = sm := by
  cases h : sm.transition with
  | table grid => simp [event_cleanup_step, h]
  | function f cl => cases cl <;> simp [event_cleanup_step, h]

/-! Claim theorems. -/

/-- Claim C1: in a dispatch call that acquires the lock, `current_state` after
the call equals the resolved next state exactly when the resolution status is
`STATE_MACHINE_SUCCESS` and the resolved result is a Transition; in every
other case (nonzero resolver status, or a NoTransition result) it equals
`current_state` before the call. -/
theorem C1_mutation_iff_success_and_transition (sm : State_machine)
    (event flags : Nat) (tt : Bool) (out : Dispatch_result)
    (hlock : lock_take sm flags tt = STATE_MACHINE_SUCCESS)
    (hout : state_machine_event sm event flags tt = some out) :
    (∀ t : State_machine_transition,
        (resolve_transition sm event).1 = STATE_MACHINE_SUCCESS →
        (resolve_transition sm event).2 = some t →
        t.is_transition = true →
        out.sm.current_state = t.transition.next_state) ∧
    (((resolve_transition sm event).1 ≠ STATE_MACHINE_SUCCESS ∨
      (∀ t : State_machine_transition,
          (resolve_transition sm event).2 = some t →
          t.is_transition = false)) →
      out.sm.current_state = sm.current_state) := by
  rw [state_machine_event_locked sm event flags tt hlock] at hout
  rcases hr : resolve_transition sm event with ⟨ret, tptr⟩
  rw [hr] at hout
  unfold event_after_resolution at hout
  by_cases hret : ret = STATE_MACHINE_SUCCESS
  · rw [if_pos hret] at hout
    cases tptr with
    | none => simp at hout
    | some t =>
      by_cases hit : t.is_transition = true
      · simp [hit] at hout
        subst hout
        constructor
        · intro t2 _ hsome hit2
          injection hsome with he
          subst he
          simp [event_cleanup_step_sm]
        · intro h
          rcases h with h | h
          · exact absurd hret h
          · exact absurd (h t rfl) (by simp [hit])
      · simp [hit] at hout
        subst hout
        constructor
        · intro t2 _ hsome hit2
          injection hsome with he
          subst he
          exact absurd hit2 hit
        · intro _
          simp [event_cleanup_step_sm]
  · rw [if_neg hret] at hout
    rw [Option.some_inj] at hout
    subst hout
    constructor
    · intro t2 hs _ _
      exact absurd hs hret
    · intro _
      rfl

/-- Claim C1 witness: lock trivially acquired (no locking), table resolution
to `t_to_one`, conclusion instantiated at the computed outcome. -/
theorem C1_witness :
    lock_take const_table_machine 0 true = STATE_MACHINE_SUCCESS ∧
    ((∀ t : State_machine_transition,
        (resolve_transition const_table_machine 0).1 = STATE_MACHINE_SUCCESS →
        (resolve_transition const_table_machine 0).2 = some t →
        t.is_transition = true →
        c1_out.sm.current_state = t.transition.next_state) ∧
     (((resolve_transition const_table_machine 0).1 ≠ STATE_MACHINE_SUCCESS ∨
       (∀ t : State_machine_transition,
           (resolve_transition const_table_machine 0).2 = some t →
           t.is_transition = false)) →
       c1_out.sm.current_state = const_table_machine.current_state)) :=
  ⟨rfl, C1_mutation_iff_success_and_transition const_table_machine 0 0 true
      c1_out rfl rfl⟩

/-- Claim C4: on a function-strategy machine with a non-NULL cleanup function,
a dispatch that acquires the lock and whose resolution succeeds (covering both
Transition and NoTransition outcomes) invokes the cleanup function exactly
once; on a table-strategy machine the cleanup function is never invoked by any
dispatch. -/
theorem C4_cleanup_once_function_never_table :
    (∀ (sm : State_machine) (event flags : Nat) (tt : Bool)
        (f : Nat → Nat → Nat × Option State_machine_transition)
        (c : State_machine_transition → Nat) (out : Dispatch_result),
        sm.transition = State_machine_strategy.function f (some c) →
        lock_take sm flags tt = STATE_MACHINE_SUCCESS →
        (f sm.current_state event).1 = STATE_MACHINE_SUCCESS →
        state_machine_event sm event flags tt = some out →
        cleanup_count out.calls = 1) ∧
    (∀ (sm : State_machine) (event flags : Nat) (tt : Bool)
        (grid : Nat → Nat → State_machine_transition) (out : Dispatch_result),
        sm.transition = State_machine_strategy.table grid →
        state_machine_event sm event flags tt = some out →
        cleanup_count out.calls = 0) := by
  constructor
  · intro sm event flags tt f c out hstrat hlock hsucc hout
    rw [event_function_strategy sm event flags tt f (some c) hstrat hlock]
      at hout
    rcases hres : f sm.current_state event with ⟨s, tptr⟩
    rw [hres] at hout
    rw [hres] at hsucc
    have hs : s = STATE_MACHINE_SUCCESS := hsucc
    subst hs
    unfold event_after_resolution at hout
    rw [if_pos rfl] at hout
    cases tptr with
    | none => simp at hout
    | some t =>
      by_cases hit : t.is_transition = true
      · simp [hit] at hout
        subst hout
        cases ho : t.transition.on_enter <;>
          simp [event_cleanup_step, hstrat, cleanup_count, ho]
      · simp [hit] at hout
        subst hout
        cases ho : t.no_transition.on_undefined_transition <;>
          simp [event_cleanup_step, hstrat, cleanup_count, ho]
  · intro sm event flags tt grid out hstrat hout
    by_cases hlock : lock_take sm flags tt = STATE_MACHINE_SUCCESS
    · rw [state_machine_event_locked sm event flags tt hlock] at hout
      simp only [resolve_transition, strategy_resolves, resolve_calls, hstrat]
        at hout
      unfold event_after_resolution at hout
      rw [if_pos rfl] at hout
      by_cases hit : (grid sm.current_state event).is_transition = true
      · simp [hit] at hout
        subst hout
        cases ho : (grid sm.current_state event).transition.on_enter <;>
          simp [event_cleanup_step, hstrat, cleanup_count, ho]
      · simp [hit] at hout
        subst hout
        cases ho :
            (grid sm.current_state event).no_transition.on_undefined_transition
          <;> simp [event_cleanup_step, hstrat, cleanup_count, ho]
    · rw [state_machine_event_lock_failed sm event flags tt hlock] at hout
      rw [Option.some_inj] at hout
      subst hout
      simp [cleanup_count]

/-- Claim C4 witness: one successful function-strategy dispatch with cleanup
(count 1) and one table-strategy dispatch (count 0). -/
theorem C4_witness :
    cleanup_count c4_fn_out.calls = 1 ∧ cleanup_count c1_out.calls = 0 :=
  ⟨C4_cleanup_once_function_never_table.1 fn_machine 0 0 true
      ok_resolver (fun _ => 5) c4_fn_out rfl rfl rfl rfl,
   C4_cleanup_once_function_never_table.2 const_table_machine 0 0
      true (fun _ _ => t_to_one) c1_out rfl rfl⟩

/-- Claim C7: a function-strategy dispatch that reaches the cleanup step with
a non-NULL cleanup function returns the status of `cleanup(data, transition)`
as its final status, and the state change performed earlier in the call
persists independently of that status (the cleanup function `c` is arbitrary,
so this covers cleanup failure after a successful transition). -/
theorem C7_cleanup_status_is_final_status (sm : State_machine)
    (event flags : Nat) (tt : Bool)
    (f : Nat → Nat → Nat × Option State_machine_transition)
    (c : State_machine_transition → Nat) (t : State_machine_transition)
    (hstrat : sm.transition = State_machine_strategy.function f (some c))
    (hlock : lock_take sm flags tt = STATE_MACHINE_SUCCESS)
    (hres : f sm.current_state event = (STATE_MACHINE_SUCCESS, some t)) :
    ∃ out, state_machine_event sm event flags tt = some out ∧
      out.ret = c t ∧
      out.sm.current_state =
        (if t.is_transition = true then t.transition.next_state
         else sm.current_state) := by
  have hev := event_function_strategy sm event flags tt f (some c) hstrat hlock
  rw [hres] at hev
  unfold event_after_resolution at hev
  rw [if_pos rfl] at hev
  by_cases hit : t.is_transition = true
  · simp only [hit] at hev
    simp at hev
    refine ⟨_, hev, ?_, ?_⟩
    · simp [event_cleanup_step, hstrat]
    · simp [event_cleanup_step_sm, hit]
  · simp [hit] at hev
    refine ⟨_, hev, ?_, ?_⟩
    · simp [event_cleanup_step, hstrat]
    · simp [event_cleanup_step_sm, hit]

/-- Claim C7 witness: concrete function machine whose cleanup returns 5; the
dispatch status is 5 and the transition to state 1 persists. -/
theorem C7_witness :
    ∃ out, state_machine_event fn_machine 0 0 true = some out ∧
      out.ret = (fun _ : State_machine_transition => 5) t_to_one ∧
      out.sm.current_state =
        (if t_to_one.is_transition = true then t_to_one.transition.next_state
         else fn_machine.current_state) :=
  C7_cleanup_status_is_final_status fn_machine 0 0 true ok_resolver
    (fun _ => 5) t_to_one rfl rfl rfl

/-- Claim C8: `state_machine_current_state` returns `STATE_MACHINE_WOULD_BLOCK`
without writing to the output pointer exactly when the `STATE_MACHINE_NONBLOCK`
flag is set and `try_take` fails (which requires locking to be in use);
otherwise it writes the `current_state` of the machine through the output pointer
and returns `STATE_MACHINE_SUCCESS`.  The machine itself is never modified. -/
theorem C8_current_state_contract (sm : State_machine) (flags : Nat)
    (tt : Bool) :
    state_machine_current_state sm flags tt =
      if USE_LOCKING sm = true ∧ flags &&& STATE_MACHINE_NONBLOCK ≠ 0 ∧
          tt = false
      then (STATE_MACHINE_WOULD_BLOCK, none, sm)
      else (STATE_MACHINE_SUCCESS, some sm.current_state, sm) := by
  unfold state_machine_current_state lock_take
  by_cases h1 : USE_LOCKING sm = true <;>
    by_cases h2 : flags &&& STATE_MACHINE_NONBLOCK ≠ 0 <;>
    cases tt <;>
    simp [h1, h2, STATE_MACHINE_WOULD_BLOCK, STATE_MACHINE_SUCCESS]

/-- Claim C6: a nonblocking dispatch on a machine with locking in use, whose
`try_take` fails, returns `STATE_MACHINE_WOULD_BLOCK` with `current_state`
(indeed the whole machine) unchanged and runs no resolver, callback or
cleanup. -/
theorem C6_nonblock_lock_contention (sm : State_machine) (event flags : Nat)
    (hflag : flags &&& STATE_MACHINE_NONBLOCK ≠ 0)
    (hlocking : USE_LOCKING sm = true) :
    state_machine_event sm event flags false =
      some { ret := STATE_MACHINE_WOULD_BLOCK, sm := sm, calls := [] } := by
  have hl : lock_take sm flags false = STATE_MACHINE_WOULD_BLOCK := by
    simp [lock_take, hlocking, hflag]
  rw [state_machine_event_lock_failed sm event flags false, hl]
  rw [hl]
  simp [STATE_MACHINE_WOULD_BLOCK, STATE_MACHINE_SUCCESS]

/-- Claim C6 witness: concrete locked table machine, nonblocking dispatch with
a failing `try_take`. -/
theorem C6_witness :
    state_machine_event locked_table_machine 0 STATE_MACHINE_NONBLOCK false =
      some { ret := STATE_MACHINE_WOULD_BLOCK, sm := locked_table_machine,
             calls := [] } :=
  C6_nonblock_lock_contention locked_table_machine 0 STATE_MACHINE_NONBLOCK
    (by decide) rfl

/-- Claim C5: a function-strategy dispatch (that acquired the lock) whose
resolver returns a nonzero status returns that status verbatim; the trace
contains only the resolver call, so neither `on_enter` nor `on_undefined` nor
the cleanup function is invoked, and the machine is unchanged. -/
theorem C5_resolver_failure_propagated_verbatim (sm : State_machine)
    (event flags : Nat) (tt : Bool)
    (f : Nat → Nat → Nat × Option State_machine_transition)
    (cl : Option (State_machine_transition → Nat))
    (hstrat : sm.transition = State_machine_strategy.function f cl)
    (hlock : lock_take sm flags tt = STATE_MACHINE_SUCCESS)
    (hfail : (f sm.current_state event).1 ≠ STATE_MACHINE_SUCCESS) :
    state_machine_event sm event flags tt =
      some { ret := (f sm.current_state event).1, sm := sm,
             calls := [Call.resolve sm.current_state event] } :=
  event_function_failure sm event flags tt f cl hstrat hlock hfail

/-- Claim C5 witness: concrete function machine whose resolver fails with
status 7. -/
theorem C5_witness :
    state_machine_event failing_fn_machine 0 0 true =
      some { ret := 7, sm := failing_fn_machine,
             calls := [Call.resolve 0 0] } :=
  C5_resolver_failure_propagated_verbatim failing_fn_machine 0 0 true
    failing_resolver none rfl rfl (by decide)

/-- Claim C10: in a function-strategy dispatch whose resolver returns a
nonzero status without storing a transition pointer (`none`), the engine never
dereferences the pointer: the dispatch still has a defined outcome (`none`
in this embedding would mark the undefined-behaviour dereference), namely the
early failure return with no callback or cleanup. -/
theorem C10_no_deref_after_resolver_failure (sm : State_machine)
    (event flags : Nat) (tt : Bool)
    (f : Nat → Nat → Nat × Option State_machine_transition)
    (cl : Option (State_machine_transition → Nat)) (s : Nat)
    (hstrat : sm.transition = State_machine_strategy.function f cl)
    (hlock : lock_take sm flags tt = STATE_MACHINE_SUCCESS)
    (hres : f sm.current_state event = (s, none))
    (hs : s ≠ STATE_MACHINE_SUCCESS) :
    state_machine_event sm event flags tt =
      some { ret := s, sm := sm,
             calls := [Call.resolve sm.current_state event] } := by
  have h := event_function_failure sm event flags tt f cl hstrat hlock
    (by rw [hres]; exact hs)
  rw [hres] at h
  exact h

/-- Claim C10 witness: concrete function machine whose resolver fails with
status 7 and an unset pointer. -/
theorem C10_witness :
    state_machine_event failing_fn_machine 1 0 true =
      some { ret := 7, sm := failing_fn_machine,
             calls := [Call.resolve 0 1] } :=
  C10_no_deref_after_resolver_failure failing_fn_machine 1 0 true
    failing_resolver none 7 rfl rfl rfl (by decide)

/-- Claim C2: with `init_state < max_state` at construction and an active
strategy that only produces Transition results whose `next_state` is below
`max_state`, the invariant `current_state < max_state` holds after
initialization, is preserved by every `state_machine_event` call satisfying
the asserted precondition `event < max_event`, and is preserved by every
`state_machine_current_state` call (which never modifies the machine). -/
theorem C2_current_state_below_max_state_invariant :
    (∀ (sm0 : State_machine) (ms me is : Nat) (lock : State_machine_locking)
        (strat : State_machine_strategy) (m : State_machine),
        is < ms →
        state_machine_init_common sm0 ms me is lock strat = some m →
        m.current_state < m.max_state) ∧
    (∀ (sm : State_machine) (event flags : Nat) (tt : Bool)
        (out : Dispatch_result),
        (∀ (cur ev : Nat) (t : State_machine_transition),
            (strategy_resolves sm.transition cur ev).2 = some t →
            t.is_transition = true →
            t.transition.next_state < sm.max_state) →
        event < sm.max_event →
        sm.current_state < sm.max_state →
        state_machine_event sm event flags tt = some out →
        out.sm.current_state < out.sm.max_state) ∧
    (∀ (sm : State_machine) (flags : Nat) (tt : Bool),
        (state_machine_current_state sm flags tt).2.2 = sm) := by
  refine ⟨?_, ?_, ?_⟩
  · intro sm0 ms me is lock strat m his hinit
    unfold state_machine_init_common at hinit
    by_cases hc : 0 < ms ∧ 0 < me ∧ is < ms ∧
        locking_definition_consistent sm0.lock = true
    · rw [if_pos hc] at hinit
      rw [Option.some_inj] at hinit
      subst hinit
      exact his
    · rw [if_neg hc] at hinit
      exact absurd hinit (by simp)
  · intro sm event flags tt out hgood hev hinv hout
    by_cases hlock : lock_take sm flags tt = STATE_MACHINE_SUCCESS
    · rw [state_machine_event_locked sm event flags tt hlock] at hout
      rcases hr : resolve_transition sm event with ⟨ret, tptr⟩
      rw [hr] at hout
      unfold event_after_resolution at hout
      by_cases hret : ret = STATE_MACHINE_SUCCESS
      · rw [if_pos hret] at hout
        cases tptr with
        | none => simp at hout
        | some t =>
          by_cases hit : t.is_transition = true
          · simp [hit] at hout
            subst hout
            have h2 : (strategy_resolves sm.transition sm.current_state
                event).2 = some t := by
              have hsnd := congrArg Prod.snd hr
              simpa [resolve_transition] using hsnd
            have hnext := hgood sm.current_state event t h2 hit
            simpa [event_cleanup_step_sm] using hnext
          · simp [hit] at hout
            subst hout
            simpa [event_cleanup_step_sm] using hinv
      · rw [if_neg hret] at hout
        rw [Option.some_inj] at hout
        subst hout
        exact hinv
    · rw [state_machine_event_lock_failed sm event flags tt hlock] at hout
      rw [Option.some_inj] at hout
      subst hout
      exact hinv
  · intro sm flags tt
    by_cases h : lock_take sm flags tt = STATE_MACHINE_SUCCESS <;>
      simp [state_machine_current_state, h]

/-- Claim C2 witness: initializing a 2-state machine at state 0 establishes
the invariant, a dispatch on `const_table_machine` (whose table only targets
state 1 < 2) preserves it, and a state read leaves the machine untouched. -/
theorem C2_witness :
    const_table_machine.current_state < const_table_machine.max_state ∧
    c1_out.sm.current_state < c1_out.sm.max_state ∧
    (state_machine_current_state const_table_machine 0 true).2.2 =
      const_table_machine :=
  ⟨C2_current_state_below_max_state_invariant.1 zeroed_machine 2 1 0
      STATE_MACHINE_NO_LOCKING
      (State_machine_strategy.table (fun _ _ => t_to_one)) const_table_machine
      (by decide) rfl,
   C2_current_state_below_max_state_invariant.2.1 const_table_machine 0 0 true
      c1_out
      (fun cur ev t h ht => by
        simp [strategy_resolves, const_table_machine] at h
        subst h
        decide)
      (by decide) (by decide) rfl,
   C2_current_state_below_max_state_invariant.2.2 const_table_machine 0 true⟩

/-- Claim C3, code evaluated at the failing input: the locking argument with
only `take` present is a partial (inconsistent) configuration, yet
`state_machine_init_table` on a zero-initialized machine accepts it — the
construction-time consistency assertion passes, because line 88 of
state-machine.c asserts on the pre-initialization `sm->lock` field instead of
the `locking` argument, and the partial configuration is installed in the
constructed machine. -/
theorem C3_inconsistent_locking_accepted_at_construction :
    locking_definition_consistent take_only_lock = false ∧
    state_machine_init_table zeroed_machine 2 1 0 take_only_lock
        (fun _ _ => t_to_one) = some c3_m ∧
    c3_m.lock = take_only_lock :=
  ⟨by decide, rfl, rfl⟩

/-- Claim C9 counterexample: a machine with the locking policy entirely
absent whose resolver returns the embedder-defined status 1 — numerically
`STATE_MACHINE_WOULD_BLOCK`.  `state_machine_event` (here called nonblocking
with no lock available) returns `STATE_MACHINE_WOULD_BLOCK`, so the claim
that it can never return that status without locking is false. -/
theorem C9_counterexample :
    USE_LOCKING status_one_fn_machine = false ∧
    (state_machine_event status_one_fn_machine 0 STATE_MACHINE_NONBLOCK
        false).map Dispatch_result.ret = some STATE_MACHINE_WOULD_BLOCK :=
  ⟨rfl, rfl⟩

/-- Claim C9 (amended): with the locking policy absent (all three primitives
NULL), the `STATE_MACHINE_NONBLOCK` flag and the `try_take` outcome have no
effect — `state_machine_event` behaves exactly as the blocking call — and
`state_machine_current_state` always succeeds, never returning
`STATE_MACHINE_WOULD_BLOCK`.  `state_machine_event` can return the numeric
value of `STATE_MACHINE_WOULD_BLOCK` only as a status forwarded verbatim from
the resolver or cleanup supplied by the embedder, never from the locking path. -/
theorem C9_no_locking_nonblock_no_effect (sm : State_machine)
    (event flags : Nat) (tt : Bool)
    (hlock : sm.lock = STATE_MACHINE_NO_LOCKING) :
    state_machine_event sm event flags tt =
      state_machine_event sm event 0 true ∧
    state_machine_current_state sm flags tt =
      (STATE_MACHINE_SUCCESS, some sm.current_state, sm) := by
  have hu : USE_LOCKING sm = false := by
    simp [USE_LOCKING, hlock, STATE_MACHINE_NO_LOCKING]
  have h1 : lock_take sm flags tt = STATE_MACHINE_SUCCESS := by
    simp [lock_take, hu]
  have h2 : lock_take sm 0 true = STATE_MACHINE_SUCCESS := by
    simp [lock_take, hu]
  constructor
  · rw [state_machine_event_locked sm event flags tt h1,
      state_machine_event_locked sm event 0 true h2]
  · simp [state_machine_current_state, h1]

/-- Claim C9 witness (for the amended statement): concrete no-locking machine,
nonblocking flag set and `try_take` unavailable. -/
theorem C9_witness :
    (state_machine_event status_one_fn_machine 0 STATE_MACHINE_NONBLOCK false =
      state_machine_event status_one_fn_machine 0 0 true) ∧
    state_machine_current_state status_one_fn_machine STATE_MACHINE_NONBLOCK
        false =
      (STATE_MACHINE_SUCCESS, some status_one_fn_machine.current_state,
        status_one_fn_machine) :=
  C9_no_locking_nonblock_no_effect status_one_fn_machine 0
    STATE_MACHINE_NONBLOCK false rfl

end CStateMachine
